import Mathlib

/-!
Verification of the volerex document-intake application.

The development shallowly embeds the TypeScript frontend logic
(`src/frontend/...`, `src/unnamed/part_001`) and the data contracts
(`src/unnamed/part_000`) into Lean.  JavaScript strings are modelled as
`String` (with explicit char-list embeddings of `split`, `trim`, `includes`
and `toLowerCase`), JavaScript plain objects used as open string-keyed maps
are modelled as association lists, and JavaScript truthiness on optional
strings is made explicit.  Backend routes whose implementation is not part
of the repository snapshot are modelled from the specification; each such
definition carries a doc comment starting with `Modelled from the spec:`.
-/

namespace Volerex

/-! ## JavaScript primitives -/

/-- Truthiness of a JavaScript `string | null | undefined` value:
`undefined`, `null` and the empty string are falsy. -/
def jsStrFalsy : Option String → Bool
  | none => true
  | some s => s = ""

/-- Embedding of the JavaScript expression `x || null` on an optional
string: a falsy value (absent, null or empty) collapses to `null`. -/
def jsOrNull (x : Option String) : Option String :=
  if jsStrFalsy x then none else x

/-- Embedding of JavaScript `s.includes(pat)`: `pat` occurs as a contiguous
substring of `s`. -/
def strIncludes (s pat : String) : Bool :=
  decide (pat.data <:+: s.data)

/-- Embedding of JavaScript `s.toLowerCase()` (character-wise lowering). -/
def jsToLower (s : String) : String :=
  String.mk (s.data.map Char.toLower)

/-- Embedding of JavaScript `s.trim()` on a character list: drop leading and
trailing whitespace. -/
def trimChars (l : List Char) : List Char :=
  ((l.dropWhile Char.isWhitespace).reverse.dropWhile Char.isWhitespace).reverse

/-- Embedding of JavaScript `s.split(',')` on a character list: the
comma-separated chunks in order, empty chunks included. -/
def splitOnComma : List Char → List (List Char)
  | [] => [[]]
  | c :: cs =>
    match splitOnComma cs with
    | [] => [[c]]
    | t :: ts => if c = ',' then [] :: t :: ts else (c :: t) :: ts

/-! ## JavaScript objects as open string-keyed maps

`Record<string, any>` values (`extracted_data`, `corrections`) are modelled
as association lists of string keys and string values, with JavaScript
object semantics: assignment overwrites in place or appends, `delete`
removes the key. -/

/-- Presence of key `k` in a JavaScript object. -/
def hasKey (m : List (String × String)) (k : String) : Bool :=
  m.any (fun kv => decide (kv.1 = k))

/-- Value of key `k` in a JavaScript object, if present. -/
def lookupKey (m : List (String × String)) (k : String) : Option String :=
  (m.find? (fun kv => decide (kv.1 = k))).map (fun kv => kv.2)

/-- Embedding of the JavaScript assignment `{...m, [k]: v}`: overwrite the
existing entry in place, or append a new one. -/
def setKey (m : List (String × String)) (k v : String) : List (String × String) :=
  if hasKey m k then m.map (fun kv => if kv.1 = k then (k, v) else kv)
  else m ++ [(k, v)]

/-- Embedding of the JavaScript statement `delete m[k]`. -/
def delKey (m : List (String × String)) (k : String) : List (String × String) :=
  m.filter (fun kv => decide (¬ kv.1 = k))

/-- Shallow merge: every entry of `overlay` written on top of `base`. -/
def mergeMap (base overlay : List (String × String)) : List (String × String) :=
  overlay.foldl (fun acc kv => setKey acc kv.1 kv.2) base

/-! ## Data model (from `src/unnamed/part_000`) -/

/-- TargetField: a specific field to be extracted as part of a template. -/
structure TargetField where
  id : Option String := none
  field_name : String
  ai_hint : Option String := none
  deriving DecidableEq

/-- PdfTemplate: an extraction template for a specific PDF structure. -/
structure PdfTemplate where
  id : Option String := none
  name : String
  description : Option String := none
  target_fields : List TargetField := []
  deriving DecidableEq

/-- PdfTemplateUpdate: schema for updating an existing template; every field
is optional (`none` means the field was omitted from the payload). -/
structure PdfTemplateUpdate where
  name : Option String := none
  description : Option String := none
  target_fields : Option (List TargetField) := none
  deriving DecidableEq

/-- EmailMatchingCriteria: criteria for matching emails to templates. -/
structure EmailMatchingCriteria where
  sender_domains : List String := []
  sender_emails : List String := []
  subject_keywords : List String := []
  required_words : List String := []
  excluded_words : List String := []
  deriving DecidableEq

/-- EmailExtractionField: field to extract from email content. -/
structure EmailExtractionField where
  id : Option String := none
  field_name : String
  ai_hint : Option String := none
  required : Bool := false
  validation_pattern : Option String := none
  deriving DecidableEq

/-- EmailTemplate: template for processing email orders/requests. -/
structure EmailTemplate where
  id : Option String := none
  name : String
  description : Option String := none
  template_type : String := "email"
  matching_criteria : EmailMatchingCriteria
  extraction_fields : List EmailExtractionField
  created_date : Option String := none
  updated_date : Option String := none
  created_by : Option String := none
  is_active : Bool := true
  usage_count : Nat := 0
  deriving DecidableEq

/-- EmailTemplateUpdate: schema for updating an email template; every field
is optional (`none` means the field was omitted from the payload). -/
structure EmailTemplateUpdate where
  name : Option String := none
  description : Option String := none
  matching_criteria : Option EmailMatchingCriteria := none
  extraction_fields : Option (List EmailExtractionField) := none
  is_active : Option Bool := none
  deriving DecidableEq

/-- ProcessedDocument: a persisted processed document. -/
structure ProcessedDocument where
  id : String
  source : String
  original_filename : String
  template_id : Option String := none
  template_name : Option String := none
  extracted_data : List (String × String)
  raw_text : Option String := none
  processed_date : String
  status : String
  user_id : String
  user_email : String
  email_sender : Option String := none
  email_subject : Option String := none
  email_received_date : Option String := none
  email_address : Option String := none
  pdf_storage_key : Option String := none
  corrections : Option (List (String × String)) := none
  export_count : Nat := 0
  last_exported_date : Option String := none
  deriving DecidableEq

/-- UpdateDocumentRequest: body of `PUT /routes/update/{id}`. -/
structure UpdateDocumentRequest where
  extracted_data : List (String × String)
  corrections : Option (List (String × String)) := none
  deriving DecidableEq

/-! ## Edit modal (from `src/unnamed/part_001`, EditDocumentModal)

The modal loads `extracted_data` into local state `editedData`, lets the
user change, add and remove fields, and on save sends
`{ extracted_data: editedData }` to the backend update route. -/

/-- Actions the edit modal can perform on its `editedData` state. -/
inductive EditAction where
  | fieldChange (fieldName value : String)
  | addField (fieldName : String)
  | removeField (fieldName : String)
  deriving DecidableEq

/-- Effect of one modal action on `editedData`.  `handleFieldChange` writes
the field; `addNewField` inserts an empty field when the name is non-empty
and the current value is falsy; `removeField` deletes the key. -/
def applyEditAction (m : List (String × String)) : EditAction → List (String × String)
  | .fieldChange k v => setKey m k v
  | .addField k =>
    if k ≠ "" ∧ jsStrFalsy (lookupKey m k) then setKey m k "" else m
  | .removeField k => delKey m k

/-- The `editedData` state after a whole edit session, starting from the
loaded `extracted_data`. -/
def editSessionData (initial : List (String × String)) (actions : List EditAction) :
    List (String × String) :=
  actions.foldl applyEditAction initial

/-- Request body built by `handleSave`: the edited map is sent as
`extracted_data`; no `corrections` field is sent. -/
def handleSavePayload (editedData : List (String × String)) : UpdateDocumentRequest :=
  { extracted_data := editedData }

/-- Modelled from the spec: the backend route `update_processed_document`
(`PUT /routes/update/{id}`) is not in the repository snapshot; only its
request/response contracts and its callers are.  Per the spec, "Update
applies corrections as a shallow merge over extracted_data and must never
delete a field silently; it is recorded as an edit, not a replacement, of
extracted_data."  The submitted data is therefore merged into the
`corrections` overlay, the stored `extracted_data` is kept, and the
document is marked `corrected`. -/
def update_processed_document (doc : ProcessedDocument) (req : UpdateDocumentRequest) :
    ProcessedDocument :=
  { doc with
    corrections :=
      some (mergeMap (mergeMap (doc.corrections.getD []) req.extracted_data)
        (req.corrections.getD []))
    status := "corrected" }

/-! ## Reports page (from `src/frontend/src/pages/ReportsPage.tsx`) -/

/-- Selection state of the reports page: the selected document ids and the
tracked template of the selection. -/
structure SelectionState where
  selectedDocuments : List String := []
  selectedTemplate : Option String := none
  deriving DecidableEq

/-- Embedding of `handleSelectAll`: when checking, select every filtered
document that shares the first filtered document's template and track that
template (`firstTemplate || null`); when unchecking, clear the selection. -/
def handleSelectAll (filteredDocuments : List ProcessedDocument) (checked : Bool)
    (st : SelectionState) : SelectionState :=
  if checked then
    match filteredDocuments with
    | [] => st
    | firstDoc :: _ =>
      let firstTemplate := firstDoc.template_id
      { selectedDocuments :=
          (filteredDocuments.filter (fun doc => decide (doc.template_id = firstTemplate))).map
            (fun doc => doc.id)
        selectedTemplate := jsOrNull firstTemplate }
  else
    { selectedDocuments := [], selectedTemplate := none }

/-- Embedding of `handleSelectDocument`: the first selection fixes the
tracked template (`document.template_id || null`); later selections are
accepted only when the document's template equals the tracked one (a
mismatch shows an error toast and leaves the state unchanged); unchecking
removes the id and clears the tracked template when nothing is left. -/
def handleSelectDocument (filteredDocuments : List ProcessedDocument)
    (documentId : String) (checked : Bool) (st : SelectionState) : SelectionState :=
  match filteredDocuments.find? (fun doc => decide (doc.id = documentId)) with
  | none => st
  | some document =>
    if checked then
      if st.selectedDocuments = [] then
        { selectedDocuments := [documentId]
          selectedTemplate := jsOrNull document.template_id }
      else if document.template_id = st.selectedTemplate then
        { st with selectedDocuments := st.selectedDocuments ++ [documentId] }
      else
        st
    else
      let newSelected := st.selectedDocuments.filter (fun id => decide (¬ id = documentId))
      { selectedDocuments := newSelected
        selectedTemplate := if newSelected = [] then none else st.selectedTemplate }

/-- One user interaction with the selection checkboxes. -/
inductive SelectionEvent where
  | selectAll (checked : Bool)
  | selectDocument (documentId : String) (checked : Bool)
  deriving DecidableEq

/-- Effect of one selection event on the selection state. -/
def applySelectionEvent (filteredDocuments : List ProcessedDocument)
    (st : SelectionState) : SelectionEvent → SelectionState
  | .selectAll checked => handleSelectAll filteredDocuments checked st
  | .selectDocument documentId checked =>
    handleSelectDocument filteredDocuments documentId checked st

/-- Selection state after a sequence of checkbox interactions, starting from
the empty selection. -/
def runSelection (filteredDocuments : List ProcessedDocument)
    (events : List SelectionEvent) : SelectionState :=
  events.foldl (applySelectionEvent filteredDocuments) {}

/-- The reports-page selection invariant claimed by the spec: every selected
document's `template_id` equals the tracked `selectedTemplate`. -/
def selectionInvariant (documents : List ProcessedDocument) (st : SelectionState) : Prop :=
  ∀ doc ∈ documents, doc.id ∈ st.selectedDocuments → doc.template_id = st.selectedTemplate

/-- Filter controls of the reports page. -/
structure ReportFilters where
  sourceFilter : String := "all"
  statusFilter : String := "all"
  templateFilter : String := "all"
  searchTerm : String := ""
  emailSourceFilter : String := "all"
  senderFilter : String := "all"
  deriving DecidableEq

/-- Case-insensitive search hit on an optional field (JavaScript
`field?.toLowerCase().includes(term.toLowerCase())`, falsy when absent). -/
def optIncludesLower (field : Option String) (term : String) : Bool :=
  match field with
  | none => false
  | some s => strIncludes (jsToLower s) (jsToLower term)

/-- Search-term predicate of `applyFilters`: case-insensitive substring
match against filename, email sender, email subject, email address or
template name. -/
def searchMatches (term : String) (doc : ProcessedDocument) : Bool :=
  strIncludes (jsToLower doc.original_filename) (jsToLower term) ||
  optIncludesLower doc.email_sender term ||
  optIncludesLower doc.email_subject term ||
  optIncludesLower doc.email_address term ||
  optIncludesLower doc.template_name term

/-- Embedding of `applyFilters`: the successive narrowing of the document
list by source, email system, sender, status, template and search term. -/
def applyFilters (documents : List ProcessedDocument) (f : ReportFilters) :
    List ProcessedDocument :=
  let filtered := documents
  let filtered :=
    if f.sourceFilter ≠ "all" then
      filtered.filter (fun doc => decide (doc.source = f.sourceFilter))
    else filtered
  let filtered :=
    if f.emailSourceFilter ≠ "all" then
      if f.emailSourceFilter = "webhook" then
        filtered.filter (fun doc => decide (doc.email_address = some "mottak@digitool.no"))
      else if f.emailSourceFilter = "imap" then
        filtered.filter (fun doc => decide (doc.email_address = some "emailparser@digitool.no"))
      else filtered
    else filtered
  let filtered :=
    if f.senderFilter ≠ "all" then
      filtered.filter (fun doc => decide (doc.email_sender = some f.senderFilter))
    else filtered
  let filtered :=
    if f.statusFilter ≠ "all" then
      filtered.filter (fun doc => decide (doc.status = f.statusFilter))
    else filtered
  let filtered :=
    if f.templateFilter ≠ "all" then
      if f.templateFilter = "no_template" then
        filtered.filter (fun doc => jsStrFalsy doc.template_id)
      else
        filtered.filter (fun doc => decide (doc.template_id = some f.templateFilter))
    else filtered
  let filtered :=
    if f.searchTerm ≠ "" then filtered.filter (fun doc => searchMatches f.searchTerm doc)
    else filtered
  filtered

/-- Conjunction of active filters as the claim states it, with the single
amendment that the `no_template` choice keeps a document whose
`template_id` is absent or the empty string (JavaScript falsiness, as in
the source's `!doc.template_id`). -/
def matchesActiveFilters (f : ReportFilters) (doc : ProcessedDocument) : Prop :=
  (f.sourceFilter ≠ "all" → doc.source = f.sourceFilter)
  ∧ (f.emailSourceFilter = "webhook" → doc.email_address = some "mottak@digitool.no")
  ∧ (f.emailSourceFilter = "imap" → doc.email_address = some "emailparser@digitool.no")
  ∧ (f.senderFilter ≠ "all" → doc.email_sender = some f.senderFilter)
  ∧ (f.statusFilter ≠ "all" → doc.status = f.statusFilter)
  ∧ (f.templateFilter = "no_template" →
      (doc.template_id = none ∨ doc.template_id = some ""))
  ∧ (f.templateFilter ≠ "all" → f.templateFilter ≠ "no_template" →
      doc.template_id = some f.templateFilter)
  ∧ (f.searchTerm ≠ "" → searchMatches f.searchTerm doc = true)

/-! ## Email templates page (from `src/frontend/src/pages/EmailTemplatesPage.tsx`) -/

/-- Form state of the email-template editor: the five criteria inputs are
free-text comma-separated strings. -/
structure EmailTemplateFormData where
  name : String := ""
  description : String := ""
  senderDomains : String := ""
  senderEmails : String := ""
  subjectKeywords : String := ""
  requiredWords : String := ""
  excludedWords : String := ""
  deriving DecidableEq

/-- Criteria-list builder used by `saveTemplate`:
`input.split(',').map(s => s.trim()).filter(Boolean)`. -/
def parseCriteriaList (input : String) : List String :=
  (((splitOnComma input.data).map trimChars).filter (fun t => decide (¬ t = []))).map String.mk

/-- Matching-criteria payload built by `saveTemplate` from the form inputs,
sent unchanged in both the create and the update request. -/
def saveTemplateCriteria (formData : EmailTemplateFormData) : EmailMatchingCriteria :=
  { sender_domains := parseCriteriaList formData.senderDomains
    sender_emails := parseCriteriaList formData.senderEmails
    subject_keywords := parseCriteriaList formData.subjectKeywords
    required_words := parseCriteriaList formData.requiredWords
    excluded_words := parseCriteriaList formData.excludedWords }

/-! ## Template store updates -/

/-- Modelled from the spec: the backend handler `update_template`
(`PUT /routes/templates/{template_id}`) is not in the repository snapshot;
only its contract (`PdfTemplateUpdate`, "Allows partial updates: only
provided fields will be changed") and the spec sentence "Update is a
partial merge — only supplied fields change; omitted fields retain prior
values" are.  Every supplied payload field replaces the stored one; every
omitted (`none`) field keeps its prior value. -/
def update_template (t : PdfTemplate) (u : PdfTemplateUpdate) : PdfTemplate :=
  { t with
    name := u.name.getD t.name
    description := match u.description with
      | some d => some d
      | none => t.description
    target_fields := u.target_fields.getD t.target_fields }

/-- Modelled from the spec: the backend handler `update_email_template`
(`PUT /routes/email-templates/{template_id}`) is not in the repository
snapshot; the same partial-merge contract applies to the fields of
`EmailTemplateUpdate`. -/
def update_email_template (t : EmailTemplate) (u : EmailTemplateUpdate) : EmailTemplate :=
  { t with
    name := u.name.getD t.name
    description := match u.description with
      | some d => some d
      | none => t.description
    matching_criteria := u.matching_criteria.getD t.matching_criteria
    extraction_fields := u.extraction_fields.getD t.extraction_fields
    is_active := u.is_active.getD t.is_active }

/-! ## Email matcher -/

/-- Modelled from the spec: the email matcher behind
`POST /routes/email-templates/test-match` is not in the repository
snapshot.  Per the spec (§4.2): disqualify immediately (score 0, not
auto-processable) if any excluded word appears in content or subject;
disqualify if required words are configured and none is present; otherwise
accumulate fixed partial weights for a sender-domain match, a sender-email
match and each subject-keyword match, normalized to [0,1]; the result is
auto-processable when the score exceeds the 0.7 threshold. -/
def score_email_match (content subject sender : String)
    (criteria : EmailMatchingCriteria) : ℚ × Bool :=
  if criteria.excluded_words.any (fun w => strIncludes content w || strIncludes subject w) then
    (0, false)
  else if criteria.required_words ≠ [] ∧
      ¬ criteria.required_words.any
          (fun w => strIncludes content w || strIncludes subject w) = true then
    (0, false)
  else
    let domainPoints : ℚ :=
      if criteria.sender_domains.any (fun d => strIncludes sender d) then 3 else 0
    let emailPoints : ℚ :=
      if criteria.sender_emails.any (fun e => decide (sender = e)) then 3 else 0
    let keywordPoints : ℚ :=
      2 * ((criteria.subject_keywords.filter (fun kw => strIncludes subject kw)).length : ℚ)
    let possible : ℚ :=
      (if criteria.sender_domains = [] then 0 else 3)
        + (if criteria.sender_emails = [] then 0 else 3)
        + 2 * (criteria.subject_keywords.length : ℚ)
    let score : ℚ := if possible = 0 then 0 else (domainPoints + emailPoints + keywordPoints) / possible
    (score, decide (score > 7 / 10))

/-! ## Batch export -/

/-- Rejection reasons of the batch-export route. -/
inductive BatchExportError where
  | emptyRequest
  | documentNotFound
  | mixedTemplates
  deriving DecidableEq

/-- Modelled from the spec: the backend handler `export_batch_documents`
(`POST /routes/export-batch`) is not in the repository snapshot; only its
request contract (`BatchExportRequest`) and its caller are.  Per the spec:
the id list must be non-empty, an unresolved id fails the whole batch, a
set spanning two different template_ids is rejected, and a successful
export increments `export_count` by exactly 1 and stamps
`last_exported_date` on every included document, changing nothing else. -/
def export_batch_documents (store : List ProcessedDocument)
    (document_ids : List String) (now : String) :
    Except BatchExportError (List ProcessedDocument) :=
  if document_ids = [] then .error .emptyRequest
  else if document_ids.any
      (fun i => (store.find? (fun d => decide (d.id = i))).isNone) then
    .error .documentNotFound
  else
    match document_ids.filterMap (fun i => store.find? (fun d => decide (d.id = i))) with
    | [] => .error .documentNotFound
    | first :: rest =>
      if rest.any (fun d => decide (¬ d.template_id = first.template_id)) then
        .error .mixedTemplates
      else
        .ok (store.map (fun d =>
          if d.id ∈ document_ids then
            { d with export_count := d.export_count + 1, last_exported_date := some now }
          else d))

/-! ## Extraction orchestrator -/

/-- Errors of the extraction orchestrator: a missing template is distinct
from a failure of the external extraction service. -/
inductive ExtractionError where
  | templateNotFound (template_id : String)
  | extractionFailed (message : String)
  deriving DecidableEq

/-- Modelled from the spec: the extraction orchestrator behind
`POST /routes/pdf-parser/extract-data` is not in the repository snapshot.
Per the spec (§4.3): it loads the referenced template's target fields and
calls the external AI extraction service (here a function parameter) with
them; with no template id it performs generic extraction; "Template-not-
found is an error distinct from extraction failure", with no fallback to
generic extraction. -/
def extract_data_from_pdf (templates : List PdfTemplate)
    (service : Option (List TargetField) → Except String (List (String × String)))
    (template_id : Option String) :
    Except ExtractionError (List (String × String)) :=
  match template_id with
  | some tid =>
    match templates.find? (fun t => decide (t.id = some tid)) with
    | none => .error (.templateNotFound tid)
    | some t =>
      match service (some t.target_fields) with
      | .ok fields => .ok fields
      | .error message => .error (.extractionFailed message)
  | none =>
    match service none with
    | .ok fields => .ok fields
    | .error message => .error (.extractionFailed message)

/-! ## Email configuration (types from `src/unnamed/part_000`, page logic from
`src/frontend/src/pages/ProcessEmailDocumentPage.tsx`) -/

/-- Stored email configuration (spec §3: server, username, password, port,
use_ssl, enabled, plus derived status). -/
structure StoredEmailConfig where
  imap_server : String
  username : String
  password : String
  port : Nat := 993
  use_ssl : Bool := true
  enabled : Bool := true
  is_configured : Bool := false
  last_test : Option String := none
  test_status : Option String := none
  last_updated : Option String := none
  deriving DecidableEq

/-- WebhookEmailConfigResponse: the declared response shape of the webhook
get-config route; it has no password field. -/
structure WebhookEmailConfigResponse where
  imap_server : Option String := none
  username : Option String := none
  port : Option Nat := none
  use_ssl : Option Bool := none
  enabled : Option Bool := none
  is_configured : Bool
  last_test : Option String := none
  test_status : Option String := none
  deriving DecidableEq

/-- AppApisConfigEmailConfigResponse: "Model for email configuration
response (without password)". -/
structure AppApisConfigEmailConfigResponse where
  imap_server : Option String := none
  username : Option String := none
  port : Nat := 993
  use_ssl : Bool := true
  enabled : Bool := true
  is_configured : Bool := false
  last_test : Option String := none
  test_status : Option String := none
  deriving DecidableEq

/-- AppApisEmailConfigEmailConfigResponse: the declared response shape of
`get_email_config2`; it has no password field. -/
structure AppApisEmailConfigEmailConfigResponse where
  is_configured : Bool
  username : Option String := none
  imap_server : Option String := none
  port : Option Nat := none
  last_updated : Option String := none
  deriving DecidableEq

/-- Modelled from the spec: the handler `get_webhook_email_config` is not in
the repository snapshot; per the spec the password is "write-only, never
echoed back", so the response carries every stored field except the
password. -/
def get_webhook_email_config (c : StoredEmailConfig) : WebhookEmailConfigResponse :=
  { imap_server := some c.imap_server
    username := some c.username
    port := some c.port
    use_ssl := some c.use_ssl
    enabled := some c.enabled
    is_configured := c.is_configured
    last_test := c.last_test
    test_status := c.test_status }

/-- Modelled from the spec: the handler `get_email_config` is not in the
repository snapshot; same password-free projection into its declared
response shape. -/
def get_email_config (c : StoredEmailConfig) : AppApisConfigEmailConfigResponse :=
  { imap_server := some c.imap_server
    username := some c.username
    port := c.port
    use_ssl := c.use_ssl
    enabled := c.enabled
    is_configured := c.is_configured
    last_test := c.last_test
    test_status := c.test_status }

/-- Modelled from the spec: the handler `get_email_config2` is not in the
repository snapshot; same password-free projection into its declared
response shape. -/
def get_email_config2 (c : StoredEmailConfig) : AppApisEmailConfigEmailConfigResponse :=
  { is_configured := c.is_configured
    username := some c.username
    imap_server := some c.imap_server
    port := some c.port
    last_updated := c.last_updated }

/-- Connection form state of the configuration UI. -/
structure EmailConfigUIState where
  imap_server : String := ""
  username : String := ""
  port : Nat := 993
  use_ssl : Bool := true
  enabled : Bool := true
  is_configured : Bool := false
  last_test : Option String := none
  test_status : Option String := none
  deriving DecidableEq

/-- Configuration page state: the form fields plus the separate password
input. -/
structure ConfigPageState where
  config : EmailConfigUIState
  password : String
  deriving DecidableEq

/-- Embedding of JavaScript `x || dflt` on an optional string. -/
def jsOrString (x : Option String) (dflt : String) : String :=
  match x with
  | some s => if s = "" then dflt else s
  | none => dflt

/-- Embedding of JavaScript `x || dflt` on an optional number. -/
def jsOrNat (x : Option Nat) (dflt : Nat) : Nat :=
  match x with
  | some n => if n = 0 then dflt else n
  | none => dflt

/-- Embedding of `loadConfig` from ProcessEmailDocumentPage.tsx: the form
fields are populated from the get-config response and the password input is
set to the empty string ("Don't set password from response for
security"). -/
def loadConfig (data : AppApisEmailConfigEmailConfigResponse) : ConfigPageState :=
  { config :=
      { imap_server := jsOrString data.imap_server ""
        username := jsOrString data.username ""
        port := jsOrNat data.port 993
        use_ssl := true
        enabled := true
        is_configured := data.is_configured || false
        last_test := data.last_updated
        test_status := none }
    password := "" }

/-! ## Concrete sample data -/

/-- Sample document whose template id is the empty string, exercising the
JavaScript falsiness edge of the selection and filter logic. -/
def docEmptyTid : ProcessedDocument :=
  { id := "d1", source := "email", original_filename := "a.pdf", template_id := some "",
    extracted_data := [], processed_date := "2024-05-01", status := "processed",
    user_id := "u1", user_email := "u1@example.com",
    email_sender := some "orders@acme.com", email_subject := some "Order 1" }

/-- Sample document using template "t1". -/
def docTemplA : ProcessedDocument :=
  { id := "a", source := "file_upload", original_filename := "a.pdf",
    template_id := some "t1", template_name := some "Invoice", extracted_data := [],
    processed_date := "2024-05-01", status := "processed", user_id := "u1",
    user_email := "u1@example.com" }

/-- Sample document using template "t2". -/
def docTemplB : ProcessedDocument :=
  { id := "b", source := "file_upload", original_filename := "b.pdf",
    template_id := some "t2", template_name := some "Order", extracted_data := [],
    processed_date := "2024-05-02", status := "processed", user_id := "u1",
    user_email := "u1@example.com" }

/-! ## Helper lemmas -/

/-- Head of a `dropWhile` result never satisfies the dropped predicate. -/
theorem head?_dropWhile_not {α : Type} (p : α → Bool) (l : List α) {x : α}
    (h : (l.dropWhile p).head? = some x) : p x = false := by
  induction l with
  | nil => simp at h
  | cons c cs ih =>
    by_cases hc : p c = true
    · rw [List.dropWhile_cons_of_pos hc] at h
      exact ih h
    · rw [List.dropWhile_cons_of_neg hc] at h
      simp only [List.head?_cons, Option.some.injEq] at h
      subst h
      exact Bool.not_eq_true _ ▸ hc

/-- A list whose head does not satisfy `p` is unchanged by `dropWhile p`. -/
theorem dropWhile_of_head?_not {α : Type} (p : α → Bool) (l : List α)
    (h : ∀ x, l.head? = some x → p x = false) : l.dropWhile p = l := by
  cases l with
  | nil => rfl
  | cons c cs =>
    apply List.dropWhile_cons_of_neg
    simp [h c rfl]

/-- The JavaScript `trim` embedding is idempotent. -/
theorem trimChars_idem (l : List Char) : trimChars (trimChars l) = trimChars l := by
  unfold trimChars
  have hkey : (((l.dropWhile Char.isWhitespace).reverse.dropWhile
      Char.isWhitespace).reverse).dropWhile Char.isWhitespace
      = ((l.dropWhile Char.isWhitespace).reverse.dropWhile Char.isWhitespace).reverse := by
    by_cases hu0 : (l.dropWhile Char.isWhitespace).reverse.dropWhile Char.isWhitespace = []
    · rw [hu0]; rfl
    · apply dropWhile_of_head?_not
      intro x hx
      rw [List.head?_reverse] at hx
      obtain ⟨pre, hpre⟩ :=
        List.dropWhile_suffix (l := (l.dropWhile Char.isWhitespace).reverse)
          (p := Char.isWhitespace)
      have h1 := List.getLast?_append_of_ne_nil pre hu0
      rw [hpre] at h1
      have h2 : ((l.dropWhile Char.isWhitespace).reverse).getLast?
          = (l.dropWhile Char.isWhitespace).head? := by
        rw [← List.head?_reverse]
        simp
      have hx' : (l.dropWhile Char.isWhitespace).head? = some x := by
        rw [← h2, h1]; exact hx
      exact head?_dropWhile_not Char.isWhitespace l hx'
  rw [hkey, List.reverse_reverse, List.dropWhile_idempotent]

/-- Every chunk produced by the comma-split embedding is non-degenerate:
the split of any character list is a non-empty list of chunks. -/
theorem splitOnComma_ne_nil (l : List Char) : splitOnComma l ≠ [] := by
  cases l with
  | nil => simp [splitOnComma]
  | cons c cs =>
    unfold splitOnComma
    cases splitOnComma cs with
    | nil => simp
    | cons t ts =>
      by_cases hc : c = ','
      · simp [hc]
      · simp [hc]

/-- Characters of every comma-split chunk come from the input, commas
excluded: if the input holds only commas and whitespace, every chunk holds
only whitespace. -/
theorem splitOnComma_all_ws {l : List Char}
    (hl : ∀ c ∈ l, c = ',' ∨ c.isWhitespace = true) :
    ∀ t ∈ splitOnComma l, ∀ c ∈ t, c.isWhitespace = true := by
  induction l with
  | nil =>
    intro t ht c hc
    simp only [splitOnComma, List.mem_singleton] at ht
    subst ht
    simp at hc
  | cons a as ih =>
    intro t ht c hc
    have ha := hl a (by simp)
    have has : ∀ c ∈ as, c = ',' ∨ c.isWhitespace = true := fun c hc => hl c (by simp [hc])
    cases hs : splitOnComma as with
    | nil => exact absurd hs (splitOnComma_ne_nil as)
    | cons t0 ts =>
      have hun : splitOnComma (a :: as)
          = if a = ',' then [] :: t0 :: ts else (a :: t0) :: ts := by
        unfold splitOnComma
        rw [hs]
      rw [hun] at ht
      by_cases hac : a = ','
      · rw [if_pos hac] at ht
        rcases List.mem_cons.1 ht with rfl | ht'
        · simp at hc
        · exact ih has t (hs ▸ ht') c hc
      · rw [if_neg hac] at ht
        rcases List.mem_cons.1 ht with rfl | ht'
        · rcases List.mem_cons.1 hc with rfl | hc'
          · rcases ha with h | h
            · exact absurd h hac
            · exact h
          · exact ih has t0 (hs ▸ List.mem_cons_self t0 ts) c hc'
        · exact ih has t (hs ▸ List.mem_cons.2 (Or.inr ht')) c hc

/-- Trimming a list of whitespace characters leaves nothing. -/
theorem trimChars_all_ws {t : List Char} (h : ∀ c ∈ t, c.isWhitespace = true) :
    trimChars t = [] := by
  unfold trimChars
  rw [List.dropWhile_eq_nil_iff.2 h]
  rfl

/-- Every entry of a parsed criteria list is a non-empty, trim-fixed
token. -/
theorem mem_parseCriteriaList {w input : String} (h : w ∈ parseCriteriaList input) :
    w ≠ "" ∧ trimChars w.data = w.data := by
  unfold parseCriteriaList at h
  rw [List.mem_map] at h
  obtain ⟨t, ht, rfl⟩ := h
  rw [List.mem_filter] at ht
  obtain ⟨htmem, htne⟩ := ht
  rw [List.mem_map] at htmem
  obtain ⟨u, _, rfl⟩ := htmem
  constructor
  · intro hcon
    have hdata : trimChars u = [] := congrArg String.data hcon
    rw [hdata] at htne
    simp at htne
  · exact trimChars_idem u

/-- An input of only commas and blanks parses to the empty list. -/
theorem parseCriteriaList_blank {input : String}
    (h : ∀ c ∈ input.data, c = ',' ∨ c.isWhitespace = true) :
    parseCriteriaList input = [] := by
  unfold parseCriteriaList
  rw [show (((splitOnComma input.data).map trimChars).filter
      (fun t => decide (¬ t = []))) = [] from ?_]
  · rfl
  · rw [List.filter_eq_nil_iff]
    intro t ht
    rw [List.mem_map] at ht
    obtain ⟨u, hu, rfl⟩ := ht
    have := trimChars_all_ws (splitOnComma_all_ws h u hu)
    simp [this]

/-- An optional string other than `some ""` is a fixed point of
`x || null`. -/
theorem jsOrNull_eq_self {t : Option String} (h : t ≠ some "") : jsOrNull t = t := by
  cases t with
  | none => rfl
  | some s =>
    have hs : ¬ s = "" := fun hc => h (by rw [hc])
    simp [jsOrNull, jsStrFalsy, hs]

/-- The JavaScript falsiness test on an optional string holds exactly for
`null`/absent and for the empty string. -/
theorem jsStrFalsy_iff {t : Option String} :
    jsStrFalsy t = true ↔ t = none ∨ t = some "" := by
  cases t with
  | none => simp [jsStrFalsy]
  | some s => simp [jsStrFalsy]

/-- Two documents of a duplicate-free document list with the same id are
the same document. -/
theorem doc_id_inj {documents : List ProcessedDocument}
    (hn : (documents.map (fun d => d.id)).Nodup)
    {d₁ d₂ : ProcessedDocument} (h₁ : d₁ ∈ documents) (h₂ : d₂ ∈ documents)
    (heq : d₁.id = d₂.id) : d₁ = d₂ :=
  List.inj_on_of_nodup_map hn h₁ h₂ heq

/-- In a duplicate-free document list, `find?` by a member's id returns
that member. -/
theorem find?_id_of_nodup {documents : List ProcessedDocument}
    (hn : (documents.map (fun d => d.id)).Nodup)
    {doc : ProcessedDocument} (hmem : doc ∈ documents) :
    documents.find? (fun d => decide (d.id = doc.id)) = some doc := by
  induction documents with
  | nil => simp at hmem
  | cons d ds ih =>
    rcases List.mem_cons.1 hmem with rfl | hmem'
    · simp [List.find?_cons]
    · by_cases hd : d.id = doc.id
      · have hdd : d = doc :=
          doc_id_inj hn (List.mem_cons_self d ds) (List.mem_cons.2 (Or.inr hmem')) hd
        simp [List.find?_cons, hdd]
      · rw [List.find?_cons]
        simp only [hd, decide_False]
        exact ih ((List.nodup_cons.1 hn).2) hmem'

/-! ## Claim theorems -/

/-- C10: `saveTemplate` builds each matching-criteria list by splitting the
comma-separated form input, trimming each token and dropping empty tokens:
no criteria list sent to create or update contains an empty or
whitespace-padded entry, and an input of only commas or blanks yields the
empty list. -/
theorem saveTemplate_criteria_lists_clean :
    (∀ (formData : EmailTemplateFormData) (w : String),
        (w ∈ (saveTemplateCriteria formData).sender_domains
          ∨ w ∈ (saveTemplateCriteria formData).sender_emails
          ∨ w ∈ (saveTemplateCriteria formData).subject_keywords
          ∨ w ∈ (saveTemplateCriteria formData).required_words
          ∨ w ∈ (saveTemplateCriteria formData).excluded_words) →
        w ≠ "" ∧ trimChars w.data = w.data)
    ∧ ∀ input : String,
        (∀ c ∈ input.data, c = ',' ∨ c.isWhitespace = true) →
        parseCriteriaList input = [] := by
  constructor
  · intro formData w hw
    rcases hw with h | h | h | h | h <;> exact mem_parseCriteriaList h
  · intro input h
    exact parseCriteriaList_blank h

/-- Witness for C10 at a concrete form input. -/
theorem saveTemplate_criteria_lists_clean_witness :
    ("acme.com" ≠ "" ∧ trimChars "acme.com".data = "acme.com".data)
    ∧ parseCriteriaList " ,  ,," = [] :=
  ⟨saveTemplate_criteria_lists_clean.1 { senderDomains := " acme.com , ,b" } "acme.com"
      (Or.inl (by decide)),
   saveTemplate_criteria_lists_clean.2 " ,  ,," (by decide)⟩

/-- C1: for every document and every payload the edit modal can produce
(any sequence of field changes, additions and removals applied to the
loaded `extracted_data`), the update keeps the stored `extracted_data`
intact, so every field key present before the update is still present
afterwards (in `extracted_data` or overlaid by `corrections`). -/
theorem document_update_preserves_extracted_keys
    (doc : ProcessedDocument) (actions : List EditAction) (k : String)
    (hk : hasKey doc.extracted_data k = true) :
    (update_processed_document doc
        (handleSavePayload (editSessionData doc.extracted_data actions))).extracted_data
      = doc.extracted_data
    ∧ (hasKey (update_processed_document doc
          (handleSavePayload (editSessionData doc.extracted_data actions))).extracted_data k
          = true
        ∨ hasKey ((update_processed_document doc
            (handleSavePayload (editSessionData doc.extracted_data actions))).corrections.getD
              []) k = true) :=
  ⟨rfl, Or.inl hk⟩

/-- Witness for C1: a document with field "Amount" updated after the user
removed that field in the modal. -/
theorem document_update_preserves_extracted_keys_witness :
    (update_processed_document
        { id := "doc1", source := "file_upload", original_filename := "f.pdf",
          extracted_data := [("Amount", "100")], processed_date := "2024-05-01",
          status := "processed", user_id := "u1", user_email := "u1@example.com" }
        (handleSavePayload (editSessionData [("Amount", "100")]
          [EditAction.removeField "Amount"]))).extracted_data
      = [("Amount", "100")] :=
  (document_update_preserves_extracted_keys
    { id := "doc1", source := "file_upload", original_filename := "f.pdf",
      extracted_data := [("Amount", "100")], processed_date := "2024-05-01",
      status := "processed", user_id := "u1", user_email := "u1@example.com" }
    [EditAction.removeField "Amount"] "Amount" (by decide)).1

/-- C3: template update is a partial merge for both PDF and email
templates: every omitted payload field keeps its prior value, and fields
outside the update schema are untouched. -/
theorem template_update_partial_merge
    (t : PdfTemplate) (u : PdfTemplateUpdate)
    (et : EmailTemplate) (eu : EmailTemplateUpdate) :
    ((u.name = none → (update_template t u).name = t.name)
      ∧ (u.description = none → (update_template t u).description = t.description)
      ∧ (u.target_fields = none → (update_template t u).target_fields = t.target_fields)
      ∧ (update_template t u).id = t.id)
    ∧ ((eu.name = none → (update_email_template et eu).name = et.name)
      ∧ (eu.description = none →
          (update_email_template et eu).description = et.description)
      ∧ (eu.matching_criteria = none →
          (update_email_template et eu).matching_criteria = et.matching_criteria)
      ∧ (eu.extraction_fields = none →
          (update_email_template et eu).extraction_fields = et.extraction_fields)
      ∧ (eu.is_active = none → (update_email_template et eu).is_active = et.is_active)
      ∧ (update_email_template et eu).id = et.id
      ∧ (update_email_template et eu).usage_count = et.usage_count
      ∧ (update_email_template et eu).created_date = et.created_date) := by
  refine ⟨⟨?_, ?_, ?_, rfl⟩, ?_, ?_, ?_, ?_, ?_, rfl, rfl, rfl⟩ <;>
    intro h <;> simp [update_template, update_email_template, h]

/-- Witness for C3: updating only the name leaves the description at its
prior value, for a PDF and for an email template. -/
theorem template_update_partial_merge_witness :
    (update_template
        { id := some "t1", name := "Invoice", description := some "Original description" }
        { name := some "X" }).description = some "Original description"
    ∧ (update_email_template
        { id := some "e1", name := "Order", description := some "Email description",
          matching_criteria := {}, extraction_fields := [] }
        { name := some "X" }).description = some "Email description" :=
  ⟨(template_update_partial_merge
      { id := some "t1", name := "Invoice", description := some "Original description" }
      { name := some "X" }
      { id := some "e1", name := "Order", description := some "Email description",
        matching_criteria := {}, extraction_fields := [] }
      { name := some "X" }).1.2.1 rfl,
   (template_update_partial_merge
      { id := some "t1", name := "Invoice", description := some "Original description" }
      { name := some "X" }
      { id := some "e1", name := "Order", description := some "Email description",
        matching_criteria := {}, extraction_fields := [] }
      { name := some "X" }).2.2.1 rfl⟩

/-- C4: whenever any excluded word occurs in the content or the subject,
the matcher returns score 0 and not auto-processable, whatever the other
criteria match. -/
theorem email_matcher_excluded_word_disqualifies
    (content subject sender : String) (criteria : EmailMatchingCriteria)
    (hne : criteria.excluded_words ≠ [])
    (hw : ∃ w ∈ criteria.excluded_words,
        strIncludes content w = true ∨ strIncludes subject w = true) :
    score_email_match content subject sender criteria = (0, false) := by
  unfold score_email_match
  rw [if_pos]
  rw [List.any_eq_true]
  obtain ⟨w, hwm, hwo⟩ := hw
  refine ⟨w, hwm, ?_⟩
  rcases hwo with h | h <;> simp [h]

/-- Witness for C4: content containing "spam" is disqualified although the
sender domain and a subject keyword match. -/
theorem email_matcher_excluded_word_disqualifies_witness :
    score_email_match "please buy spam now" "Monthly invoice" "x@acme.com"
      { excluded_words := ["spam"], sender_domains := ["@acme.com"],
        subject_keywords := ["invoice"] } = (0, false) :=
  email_matcher_excluded_word_disqualifies "please buy spam now" "Monthly invoice"
    "x@acme.com"
    { excluded_words := ["spam"], sender_domains := ["@acme.com"],
      subject_keywords := ["invoice"] }
    (by decide) ⟨"spam", by decide, Or.inl (by decide)⟩

/-- C5: the matcher is a pure function of the email content, subject,
sender and criteria: identical inputs give identical (score,
auto-processable) results, with no other dependence. -/
theorem email_matcher_deterministic
    (content₁ subject₁ sender₁ content₂ subject₂ sender₂ : String)
    (criteria₁ criteria₂ : EmailMatchingCriteria)
    (hc : content₁ = content₂) (hs : subject₁ = subject₂)
    (hf : sender₁ = sender₂) (hcr : criteria₁ = criteria₂) :
    score_email_match content₁ subject₁ sender₁ criteria₁
      = score_email_match content₂ subject₂ sender₂ criteria₂ := by
  subst hc; subst hs; subst hf; subst hcr; rfl

/-- Witness for C5 at one concrete input. -/
theorem email_matcher_deterministic_witness :
    score_email_match "body" "subject" "a@b.c" { required_words := ["body"] }
      = score_email_match "body" "subject" "a@b.c" { required_words := ["body"] } :=
  email_matcher_deterministic "body" "subject" "a@b.c" "body" "subject" "a@b.c"
    { required_words := ["body"] } { required_words := ["body"] } rfl rfl rfl rfl

/-- C7: a PDF upload whose template id resolves to no stored template
yields the template-not-found error, which is distinct from every
extraction-service failure, and the extraction service is never consulted
(no generic-extraction fallback): the outcome is independent of the
service. -/
theorem extraction_template_not_found
    (templates : List PdfTemplate)
    (service service' : Option (List TargetField) → Except String (List (String × String)))
    (tid : String)
    (hmiss : templates.find? (fun t => decide (t.id = some tid)) = none) :
    extract_data_from_pdf templates service (some tid)
        = .error (.templateNotFound tid)
    ∧ (∀ message, ExtractionError.templateNotFound tid
        ≠ ExtractionError.extractionFailed message)
    ∧ extract_data_from_pdf templates service (some tid)
        = extract_data_from_pdf templates service' (some tid) := by
  refine ⟨?_, ?_, ?_⟩
  · simp only [extract_data_from_pdf, hmiss]
  · intro message h
    exact ExtractionError.noConfusion h
  · simp only [extract_data_from_pdf, hmiss]

/-- Witness for C7: an empty template store rejects template id
"missing". -/
theorem extraction_template_not_found_witness :
    extract_data_from_pdf [] (fun _ => Except.ok []) (some "missing")
      = Except.error (ExtractionError.templateNotFound "missing") :=
  (extraction_template_not_found [] (fun _ => Except.ok [])
    (fun _ => Except.error "service unreachable") "missing" rfl).1

/-- C9: the email-configuration password is write-only: every get-config
response is unchanged when only the stored password changes (so the
response carries no password information), and the configuration UI sets
its password input to the empty string after loading a configuration. -/
theorem email_config_password_write_only :
    (∀ (c : StoredEmailConfig) (p : String),
        get_webhook_email_config { c with password := p } = get_webhook_email_config c
        ∧ get_email_config { c with password := p } = get_email_config c
        ∧ get_email_config2 { c with password := p } = get_email_config2 c)
    ∧ ∀ data : AppApisEmailConfigEmailConfigResponse, (loadConfig data).password = "" :=
  ⟨fun _ _ => ⟨rfl, rfl, rfl⟩, fun _ => rfl⟩

/-- Selecting all on a non-empty filtered list selects exactly the
documents sharing the first document's template. -/
theorem handleSelectAll_true_eq (documents : List ProcessedDocument)
    (st : SelectionState) (hne : documents ≠ []) :
    handleSelectAll documents true st
      = { selectedDocuments :=
            (documents.filter
              (fun doc => decide (doc.template_id = (documents.head hne).template_id))).map
              (fun doc => doc.id)
          selectedTemplate := jsOrNull (documents.head hne).template_id } := by
  cases documents with
  | nil => exact absurd rfl hne
  | cons d0 drest => rfl

/-- One checkbox interaction preserves the selection invariant, provided
document ids are unique and no template id is the empty string. -/
theorem selectionInvariant_step
    {documents : List ProcessedDocument}
    (hn : (documents.map (fun d => d.id)).Nodup)
    (htid : ∀ d ∈ documents, d.template_id ≠ some "")
    {st : SelectionState} (hinv : selectionInvariant documents st)
    (ev : SelectionEvent) :
    selectionInvariant documents (applySelectionEvent documents st ev) := by
  cases ev with
  | selectAll checked =>
    cases checked with
    | false =>
      intro doc hdoc hid
      simp [applySelectionEvent, handleSelectAll] at hid
    | true =>
      by_cases hne : documents = []
      · subst hne
        intro doc hdoc hid
        simp at hdoc
      · rw [show applySelectionEvent documents st (SelectionEvent.selectAll true)
            = handleSelectAll documents true st from rfl,
          handleSelectAll_true_eq documents st hne]
        intro doc hdoc hid
        simp only [List.mem_map, List.mem_filter] at hid
        obtain ⟨d', ⟨hd'mem, hd'q⟩, hideq⟩ := hid
        have hdd : d' = doc := doc_id_inj hn hd'mem hdoc hideq
        show doc.template_id = jsOrNull (documents.head hne).template_id
        rw [jsOrNull_eq_self (htid _ (List.head_mem hne)), ← hdd]
        exact of_decide_eq_true hd'q
  | selectDocument documentId checked =>
    cases hfind : documents.find? (fun d => decide (d.id = documentId)) with
    | none =>
      simpa only [selectionInvariant, applySelectionEvent, handleSelectDocument, hfind]
        using hinv
    | some document =>
      have hdmem : document ∈ documents := List.mem_of_find?_eq_some hfind
      have hdid : document.id = documentId := by
        have h := List.find?_some hfind
        simpa using h
      cases checked with
      | true =>
        by_cases hsel : st.selectedDocuments = []
        · simp only [selectionInvariant, applySelectionEvent, handleSelectDocument, hfind,
            hsel, if_true, List.mem_singleton]
          intro doc hdoc heq
          have hdd : document = doc := doc_id_inj hn hdmem hdoc (by rw [hdid, heq])
          rw [← hdd]
          exact (jsOrNull_eq_self (htid document hdmem)).symm
        · by_cases htm : document.template_id = st.selectedTemplate
          · simp only [selectionInvariant, applySelectionEvent, handleSelectDocument, hfind,
              hsel, htm, if_true, if_false, ite_false, ite_true]
            intro doc hdoc hid
            rcases List.mem_append.1 hid with h | h
            · exact hinv doc hdoc h
            · have heq : doc.id = documentId := by simpa using h
              have hdd : document = doc := doc_id_inj hn hdmem hdoc (by rw [hdid, heq])
              rw [← hdd]
              exact htm
          · simpa only [selectionInvariant, applySelectionEvent, handleSelectDocument,
              hfind, hsel, htm, if_false, ite_false] using hinv
      | false =>
        by_cases hns :
            st.selectedDocuments.filter (fun id => decide (¬ id = documentId)) = []
        · intro doc hdoc hid
          simp only [applySelectionEvent, handleSelectDocument, hfind, hns] at hid
          simp at hid
        · intro doc hdoc hid
          simp only [applySelectionEvent, handleSelectDocument, hfind] at hid ⊢
          have hmem : doc.id ∈ st.selectedDocuments := (List.mem_filter.1 hid).1
          rw [if_neg hns]
          exact hinv doc hdoc hmem

/-- A selection attempt on a document whose template differs from the
tracked one leaves the selection state unchanged. -/
theorem handleSelectDocument_mismatch_rejected
    {documents : List ProcessedDocument}
    (hn : (documents.map (fun d => d.id)).Nodup)
    {doc : ProcessedDocument} (hdoc : doc ∈ documents)
    {documentId : String} (hid : doc.id = documentId)
    {st : SelectionState} (hne : st.selectedDocuments ≠ [])
    (hmm : ¬ doc.template_id = st.selectedTemplate) :
    handleSelectDocument documents documentId true st = st := by
  subst hid
  unfold handleSelectDocument
  rw [find?_id_of_nodup hn hdoc]
  simp [hne, hmm]

/-- C2 (amended): provided document ids are unique and no stored document
carries the empty string as template id, every sequence of
`handleSelectAll`/`handleSelectDocument` interactions starting from the
empty selection keeps every selected document's `template_id` equal to the
tracked `selectedTemplate`, and an attempt to select a document of a
different template leaves the selection unchanged, so a batch export is
only ever invoked on a same-template set. -/
theorem reports_selection_single_template
    (documents : List ProcessedDocument)
    (hn : (documents.map (fun d => d.id)).Nodup)
    (htid : ∀ d ∈ documents, d.template_id ≠ some "") :
    (∀ events : List SelectionEvent,
        selectionInvariant documents (runSelection documents events))
    ∧ ∀ (st : SelectionState) (documentId : String) (doc : ProcessedDocument),
        doc ∈ documents → doc.id = documentId → st.selectedDocuments ≠ [] →
        ¬ doc.template_id = st.selectedTemplate →
        handleSelectDocument documents documentId true st = st := by
  constructor
  · intro events
    have hrun : ∀ (evs : List SelectionEvent) (st : SelectionState),
        selectionInvariant documents st →
        selectionInvariant documents (evs.foldl (applySelectionEvent documents) st) := by
      intro evs
      induction evs with
      | nil => exact fun st h => h
      | cons e es ih =>
        intro st h
        exact ih _ (selectionInvariant_step hn htid h e)
    exact hrun events {} (fun doc _ hid => absurd hid (List.not_mem_nil _))
  · intro st documentId doc hdoc hid hne hmm
    exact handleSelectDocument_mismatch_rejected hn hdoc hid hne hmm

/-- Counterexample to C2 as stated: with a stored document whose
template_id is the empty string, selecting it tracks `selectedTemplate =
none` (JavaScript `"" || null`), so the selected document's template_id
differs from the tracked template. -/
theorem reports_selection_single_template_cex :
    ¬ selectionInvariant [docEmptyTid]
        (runSelection [docEmptyTid] [SelectionEvent.selectDocument "d1" true]) := by
  intro h
  exact absurd
    (h docEmptyTid (List.mem_cons_self _ _) (by decide))
    (by decide)

/-- Witness for C2 on two concrete documents with distinct templates. -/
theorem reports_selection_single_template_witness :
    selectionInvariant [docTemplA, docTemplB]
        (runSelection [docTemplA, docTemplB] [SelectionEvent.selectAll true])
    ∧ handleSelectDocument [docTemplA, docTemplB] "b" true
        { selectedDocuments := ["a"], selectedTemplate := some "t1" }
      = { selectedDocuments := ["a"], selectedTemplate := some "t1" } :=
  ⟨(reports_selection_single_template [docTemplA, docTemplB] (by decide) (by decide)).1
      [SelectionEvent.selectAll true],
   (reports_selection_single_template [docTemplA, docTemplB] (by decide) (by decide)).2
      { selectedDocuments := ["a"], selectedTemplate := some "t1" } "b" docTemplB
      (by decide) rfl (by decide) (by decide)⟩

/-- When every requested id resolves, the not-found guard of the batch
export is off. -/
theorem export_guards (store : List ProcessedDocument) (document_ids : List String)
    (hres : ∀ i ∈ document_ids, ∃ d ∈ store, d.id = i) :
    (document_ids.any (fun i => (store.find? (fun d => decide (d.id = i))).isNone)) = false := by
  rw [List.any_eq_false]
  intro i hi hN
  obtain ⟨d, hd, hdid⟩ := hres i hi
  have hs : (store.find? (fun d => decide (d.id = i))).isSome = true :=
    List.find?_isSome.2 ⟨d, hd, by simp [hdid]⟩
  rw [Option.isNone_iff_eq_none.1 hN] at hs
  simp at hs

/-- Every document picked by the export id-resolution is a stored document
whose id was requested. -/
theorem export_sel_mem (store : List ProcessedDocument) (document_ids : List String)
    {d : ProcessedDocument}
    (hd : d ∈ document_ids.filterMap (fun i => store.find? (fun x => decide (x.id = i)))) :
    d ∈ store ∧ d.id ∈ document_ids := by
  rw [List.mem_filterMap] at hd
  obtain ⟨i, hi, hfi⟩ := hd
  refine ⟨List.mem_of_find?_eq_some hfi, ?_⟩
  have h := List.find?_some hfi
  have hdi : d.id = i := by simpa using h
  rw [hdi]
  exact hi

/-- C6: a non-empty batch of resolvable, same-template document ids is
exported successfully, incrementing `export_count` by exactly 1 and setting
`last_exported_date` on every included document while every other field and
every other document is unchanged; a batch resolving to two different
template ids is rejected with `mixedTemplates` and no document modified. -/
theorem batch_export_semantics
    (store : List ProcessedDocument) (document_ids : List String) (now : String) :
    ((document_ids ≠ []) →
      (∀ i ∈ document_ids, ∃ d ∈ store, d.id = i) →
      (∀ d₁ ∈ store, ∀ d₂ ∈ store,
        d₁.id ∈ document_ids → d₂.id ∈ document_ids → d₁.template_id = d₂.template_id) →
      ∃ store', export_batch_documents store document_ids now = Except.ok store'
        ∧ List.Forall₂ (fun d d' =>
            (d.id ∈ document_ids →
              d' = { d with
                      export_count := d.export_count + 1
                      last_exported_date := some now })
            ∧ (d.id ∉ document_ids → d' = d)) store store')
    ∧ ∀ (i₁ i₂ : String) (d₁ d₂ : ProcessedDocument),
        i₁ ∈ document_ids → i₂ ∈ document_ids →
        store.find? (fun d => decide (d.id = i₁)) = some d₁ →
        store.find? (fun d => decide (d.id = i₂)) = some d₂ →
        (∀ i ∈ document_ids, ∃ d ∈ store, d.id = i) →
        d₁.template_id ≠ d₂.template_id →
        export_batch_documents store document_ids now
          = Except.error BatchExportError.mixedTemplates := by
  constructor
  · intro hne hres hsame
    unfold export_batch_documents
    rw [if_neg hne, if_neg (by simp [export_guards store document_ids hres])]
    cases hsel : document_ids.filterMap (fun i => store.find? (fun d => decide (d.id = i))) with
    | nil =>
      exfalso
      obtain ⟨i0, hi0⟩ : ∃ i, i ∈ document_ids := by
        cases document_ids with
        | nil => exact absurd rfl hne
        | cons a l => exact ⟨a, by simp⟩
      obtain ⟨d, hd, hdid⟩ := hres i0 hi0
      have hfs : (store.find? (fun x => decide (x.id = i0))).isSome = true :=
        List.find?_isSome.2 ⟨d, hd, by simp [hdid]⟩
      obtain ⟨d', hd'⟩ := Option.isSome_iff_exists.1 hfs
      have hmem : d' ∈ document_ids.filterMap
          (fun i => store.find? (fun d => decide (d.id = i))) :=
        List.mem_filterMap.2 ⟨i0, hi0, hd'⟩
      rw [hsel] at hmem
      simp at hmem
    | cons first rest =>
      simp only [hsel]
      have hmix : (rest.any (fun d => decide (¬ d.template_id = first.template_id))) = false := by
        rw [List.any_eq_false]
        intro d hd hdec
        have hdiff : ¬ d.template_id = first.template_id := of_decide_eq_true hdec
        obtain ⟨hdstore, hdids⟩ :=
          export_sel_mem store document_ids (hsel ▸ List.mem_cons.2 (Or.inr hd))
        obtain ⟨hfstore, hfids⟩ :=
          export_sel_mem store document_ids (hsel ▸ List.mem_cons_self first rest)
        exact hdiff (hsame d hdstore first hfstore hdids hfids)
      rw [if_neg (by rw [hmix]; simp)]
      refine ⟨_, rfl, ?_⟩
      rw [List.forall₂_map_right_iff]
      rw [List.forall₂_same]
      intro x hx
      constructor
      · intro hxin
        simp [hxin]
      · intro hxout
        simp [hxout]
  · intro i₁ i₂ d₁ d₂ hi₁ hi₂ hf₁ hf₂ hres hdiff
    have hne : document_ids ≠ [] := by
      intro h
      subst h
      simp at hi₁
    unfold export_batch_documents
    rw [if_neg hne, if_neg (by simp [export_guards store document_ids hres])]
    cases hsel : document_ids.filterMap (fun i => store.find? (fun d => decide (d.id = i))) with
    | nil =>
      exfalso
      have hmem : d₁ ∈ document_ids.filterMap
          (fun i => store.find? (fun d => decide (d.id = i))) :=
        List.mem_filterMap.2 ⟨i₁, hi₁, hf₁⟩
      rw [hsel] at hmem
      simp at hmem
    | cons first rest =>
      simp only [hsel]
      have hd₁ : d₁ ∈ first :: rest :=
        hsel ▸ List.mem_filterMap.2 ⟨i₁, hi₁, hf₁⟩
      have hd₂ : d₂ ∈ first :: rest :=
        hsel ▸ List.mem_filterMap.2 ⟨i₂, hi₂, hf₂⟩
      have hany : (rest.any (fun d => decide (¬ d.template_id = first.template_id))) = true := by
        by_contra hb
        simp only [Bool.not_eq_true] at hb
        have hall : ∀ d ∈ first :: rest, d.template_id = first.template_id := by
          intro d hd
          rcases List.mem_cons.1 hd with rfl | hd'
          · rfl
          · have hfx := List.any_eq_false.1 hb d hd'
            by_contra hcon
            exact hfx (by simp [hcon])
        exact hdiff ((hall d₁ hd₁).trans (hall d₂ hd₂).symm)
      rw [if_pos hany]

/-- Witness for C6: exporting the single document "a" succeeds and stamps
it; exporting "a" and "b", which use different templates, is rejected. -/
theorem batch_export_semantics_witness :
    (∃ store', export_batch_documents [docTemplA, docTemplB] ["a"] "2024-06-01"
        = Except.ok store'
        ∧ List.Forall₂ (fun d d' =>
            (d.id ∈ ["a"] →
              d' = { d with
                      export_count := d.export_count + 1
                      last_exported_date := some "2024-06-01" })
            ∧ (d.id ∉ ["a"] → d' = d)) [docTemplA, docTemplB] store')
    ∧ export_batch_documents [docTemplA, docTemplB] ["a", "b"] "2024-06-01"
        = Except.error BatchExportError.mixedTemplates :=
  ⟨(batch_export_semantics [docTemplA, docTemplB] ["a"] "2024-06-01").1
      (by decide) (by decide) (by decide),
   (batch_export_semantics [docTemplA, docTemplB] ["a", "b"] "2024-06-01").2
      "a" "b" docTemplA docTemplB (by decide) (by decide) (by decide) (by decide)
      (by decide) (by decide)⟩

/-- Membership in a conditionally applied filter. -/
theorem mem_ite_filter {α : Type} (c : Prop) [Decidable c] (p : α → Bool)
    (l : List α) (x : α) :
    (x ∈ if c then l.filter p else l) ↔ x ∈ l ∧ (c → p x = true) := by
  split_ifs with h
  · rw [List.mem_filter]
    tauto
  · tauto

/-- Membership in a conditionally applied two-way filter. -/
theorem mem_ite_filter2 {α : Type} (c c₁ : Prop) [Decidable c] [Decidable c₁]
    (p₁ p₂ : α → Bool) (l : List α) (x : α) :
    (x ∈ if c then (if c₁ then l.filter p₁ else l.filter p₂) else l) ↔
      x ∈ l ∧ (c → c₁ → p₁ x = true) ∧ (c → ¬ c₁ → p₂ x = true) := by
  split_ifs with h h₁ <;> simp [List.mem_filter] <;> tauto

/-- Membership in a conditionally applied three-way filter whose last
branch is the identity. -/
theorem mem_ite_filter3 {α : Type} (c c₁ c₂ : Prop)
    [Decidable c] [Decidable c₁] [Decidable c₂]
    (p₁ p₂ : α → Bool) (l : List α) (x : α) :
    (x ∈ if c then (if c₁ then l.filter p₁ else if c₂ then l.filter p₂ else l) else l) ↔
      x ∈ l ∧ (c → c₁ → p₁ x = true) ∧ (c → ¬ c₁ → c₂ → p₂ x = true) := by
  split_ifs with h h₁ h₂ <;> simp [List.mem_filter] <;> tauto

/-- C8 (amended): with every filter `"all"` and the empty search term,
`applyFilters` returns exactly the full document list; in general a
document is in the filtered result iff it is in the list and satisfies
every active filter, where the `no_template` choice keeps a document whose
`template_id` is absent or the empty string (JavaScript falsiness). -/
theorem reports_applyFilters_conjunction :
    (∀ documents : List ProcessedDocument,
        applyFilters documents
          { sourceFilter := "all", statusFilter := "all", templateFilter := "all",
            searchTerm := "", emailSourceFilter := "all", senderFilter := "all" }
          = documents)
    ∧ ∀ (documents : List ProcessedDocument) (f : ReportFilters)
        (doc : ProcessedDocument),
        doc ∈ applyFilters documents f ↔ doc ∈ documents ∧ matchesActiveFilters f doc := by
  constructor
  · intro documents
    simp [applyFilters]
  · intro documents f doc
    simp only [applyFilters]
    rw [mem_ite_filter, mem_ite_filter2, mem_ite_filter, mem_ite_filter, mem_ite_filter3,
      mem_ite_filter]
    have hWA : f.emailSourceFilter = "webhook" → f.emailSourceFilter ≠ "all" := by
      intro h
      rw [h]
      decide
    have hIA : f.emailSourceFilter = "imap" → f.emailSourceFilter ≠ "all" := by
      intro h
      rw [h]
      decide
    have hIW : f.emailSourceFilter = "imap" → f.emailSourceFilter ≠ "webhook" := by
      intro h
      rw [h]
      decide
    have hNA : f.templateFilter = "no_template" → f.templateFilter ≠ "all" := by
      intro h
      rw [h]
      decide
    unfold matchesActiveFilters
    simp only [decide_eq_true_eq, jsStrFalsy_iff]
    constructor
    · rintro ⟨⟨⟨⟨⟨⟨hmem, h1⟩, h2a, h2b⟩, h3⟩, h4⟩, h5a, h5b⟩, h6⟩
      refine ⟨hmem, h1, ?_, ?_, h3, h4, ?_, h5b, h6⟩
      · intro hw
        exact h2a (hWA hw) hw
      · intro hi
        exact h2b (hIA hi) (hIW hi) hi
      · intro hn
        exact h5a (hNA hn) hn
    · rintro ⟨hmem, h1, h2w, h2i, h3, h4, h5n, h5t, h6⟩
      refine ⟨⟨⟨⟨⟨⟨hmem, h1⟩, ?_, ?_⟩, h3⟩, h4⟩, ?_, h5t⟩, h6⟩
      · intro _ hw
        exact h2w hw
      · intro _ _ hi
        exact h2i hi
      · intro _ hn
        exact h5n hn

/-- Counterexample to C8 as stated: under the `no_template` filter the code
keeps a document whose `template_id` is present but equal to the empty
string, while the claim requires the absence of a template id. -/
theorem reports_applyFilters_conjunction_cex :
    applyFilters [docEmptyTid] { templateFilter := "no_template" } = [docEmptyTid]
    ∧ docEmptyTid.template_id ≠ none := by
  constructor
  · decide
  · decide

end Volerex
